import Mathlib

/-!
Shallow embedding of `src/synthesize.py` (the Polly text-to-speech
pipeline).  The script resolves five environment variables (two
mandatory, three defaulted), reads a text file, strips surrounding
whitespace, calls the speech-synthesis service, and uploads the
returned audio bytes to object storage.  We model the outside world
(environment, filesystem, both services) as a record of functions and
the program as a pure function producing the list of observable
external events together with its final outcome.
-/

/-- Python `str.isspace`, which determines exactly the characters
`str.strip()` removes: the ASCII whitespace and separator controls
(0x09-0x0D, 0x1C-0x1F, 0x20, 0x85) together with the Unicode space,
line and paragraph separators (categories Zs, Zl, Zp and bidi classes
WS, B, S). -/
def pyIsSpace (c : Char) : Bool :=
  [0x09, 0x0A, 0x0B, 0x0C, 0x0D, 0x1C, 0x1D, 0x1E, 0x1F, 0x20,
   0x85, 0xA0, 0x1680, 0x2000, 0x2001, 0x2002, 0x2003, 0x2004, 0x2005,
   0x2006, 0x2007, 0x2008, 0x2009, 0x200A, 0x2028, 0x2029, 0x202F, 0x205F,
   0x3000].contains c.toNat

/-- Python `text.strip()`: drop leading and trailing whitespace. -/
def pyStrip (s : String) : String :=
  String.mk (((s.data.dropWhile pyIsSpace).reverse.dropWhile pyIsSpace).reverse)

/-- Audio payloads are opaque byte sequences. -/
abbrev Bytes := List Nat

/-- Observable external events of one run, in order of occurrence. -/
inductive Event where
  | openFile (path : String)
  | synthCall (region text format voice : String)
  | storageCall (region bucket key : String) (body : Bytes) (contentType : String)
  | printLine (msg : String)
deriving DecidableEq

/-- Final outcome of the process: a normal `sys.exit` code or an
uncaught exception kind propagating to the process boundary. -/
inductive Outcome where
  | exitCode (n : Nat)
  | keyError (name : String)
  | inputError
  | synthesisError
  | storageError
deriving DecidableEq

/-- The outside world the script interacts with: the process
environment, the filesystem, and the two services.  `readFile` is
`none` when the file cannot be opened or read; `synth` is `none` on a
synthesis failure; `putObject` is `false` on a storage failure. -/
structure World where
  env : String → Option String
  readFile : String → Option String
  synth : String → String → String → String → Option Bytes
  putObject : String → String → String → Bytes → String → Bool

/-- `os.environ.get("TEXT_FILE", "speech.txt")`. -/
def resolveTextFile (env : String → Option String) : String :=
  (env "TEXT_FILE").getD "speech.txt"

/-- `os.environ.get("VOICE_ID", "Joanna")`. -/
def resolveVoice (env : String → Option String) : String :=
  (env "VOICE_ID").getD "Joanna"

/-- `os.environ.get("AWS_REGION", "us-east-1")`. -/
def resolveRegion (env : String → Option String) : String :=
  (env "AWS_REGION").getD "us-east-1"

/-- The whole of `main()` in `src/synthesize.py`: mandatory lookups of
`S3_BUCKET` and `S3_KEY` (a missing one raises `KeyError`), file read
and strip with the empty-text early exit, the synthesis call with
`OutputFormat="mp3"`, the storage upload with
`ContentType="audio/mpeg"`, and the final confirmation print. -/
def Synthesize.main (w : World) : List Event × Outcome :=
  match w.env "S3_BUCKET" with
  | none => ([], Outcome.keyError "S3_BUCKET")
  | some s3_bucket =>
    match w.env "S3_KEY" with
    | none => ([], Outcome.keyError "S3_KEY")
    | some s3_key =>
      match w.readFile (resolveTextFile w.env) with
      | none => ([Event.openFile (resolveTextFile w.env)], Outcome.inputError)
      | some content =>
        if pyStrip content = "" then
          ([Event.openFile (resolveTextFile w.env),
            Event.printLine "Text file is empty."], Outcome.exitCode 1)
        else
          match w.synth (resolveRegion w.env) (pyStrip content) "mp3" (resolveVoice w.env) with
          | none =>
            ([Event.openFile (resolveTextFile w.env),
              Event.synthCall (resolveRegion w.env) (pyStrip content) "mp3" (resolveVoice w.env)],
             Outcome.synthesisError)
          | some audio =>
            match w.putObject (resolveRegion w.env) s3_bucket s3_key audio "audio/mpeg" with
            | false =>
              ([Event.openFile (resolveTextFile w.env),
                Event.synthCall (resolveRegion w.env) (pyStrip content) "mp3" (resolveVoice w.env),
                Event.storageCall (resolveRegion w.env) s3_bucket s3_key audio "audio/mpeg"],
               Outcome.storageError)
            | true =>
              ([Event.openFile (resolveTextFile w.env),
                Event.synthCall (resolveRegion w.env) (pyStrip content) "mp3" (resolveVoice w.env),
                Event.storageCall (resolveRegion w.env) s3_bucket s3_key audio "audio/mpeg",
                Event.printLine ("Uploaded s3://" ++ s3_bucket ++ "/" ++ s3_key)],
               Outcome.exitCode 0)

/-- Is this event a synthesis-service call? -/
def Event.isSynth : Event → Bool
  | Event.synthCall _ _ _ _ => true
  | _ => false

/-- Is this event a storage-service call? -/
def Event.isStore : Event → Bool
  | Event.storageCall _ _ _ _ _ => true
  | _ => false

/-- Is this event a file open? -/
def Event.isOpen : Event → Bool
  | Event.openFile _ => true
  | _ => false

/-- Number of synthesis-service calls in a trace. -/
def countSynth (tr : List Event) : Nat := tr.countP (fun e => e.isSynth)

/-- Number of storage-service calls in a trace. -/
def countStore (tr : List Event) : Nat := tr.countP (fun e => e.isStore)

/-- Number of file opens in a trace. -/
def countOpen (tr : List Event) : Nat := tr.countP (fun e => e.isOpen)

/-- A fully successful concrete world: both mandatory variables set,
a readable default input file, and both services succeeding. -/
def wOk : World where
  env := fun n =>
    if n = "S3_BUCKET" then some "my-bucket"
    else if n = "S3_KEY" then some "out/hello.mp3"
    else none
  readFile := fun p => if p = "speech.txt" then some " \u00A0Hello world\n" else none
  synth := fun _ _ _ _ => some [1, 2, 3]
  putObject := fun _ _ _ _ _ => true

example :
    Synthesize.main wOk =
      ([Event.openFile "speech.txt",
        Event.synthCall "us-east-1" "Hello world" "mp3" "Joanna",
        Event.storageCall "us-east-1" "my-bucket" "out/hello.mp3" [1, 2, 3] "audio/mpeg",
        Event.printLine "Uploaded s3://my-bucket/out/hello.mp3"],
       Outcome.exitCode 0) := by decide

/-- Claim C1: for every world whose mandatory configuration is present
and whose input file reads to content that is non-empty after
stripping, the run contains exactly one synthesis call, and every
synthesis call in the trace carries exactly the stripped text, the
format "mp3", and the configured voice identifier. -/
theorem c1_synth_once_trimmed_mp3_voice (w : World) (b k content : String)
    (hb : w.env "S3_BUCKET" = some b) (hk : w.env "S3_KEY" = some k)
    (hr : w.readFile (resolveTextFile w.env) = some content)
    (hne : pyStrip content ≠ "") :
    countSynth (Synthesize.main w).1 = 1 ∧
    ∀ r t f v, Event.synthCall r t f v ∈ (Synthesize.main w).1 →
      t = pyStrip content ∧ f = "mp3" ∧ v = resolveVoice w.env := by
  unfold Synthesize.main
  rw [hb, hk, hr]
  simp only [if_neg hne]
  cases hs : w.synth (resolveRegion w.env) (pyStrip content) "mp3" (resolveVoice w.env) with
  | none =>
    simp only [hs]
    constructor
    · simp [countSynth, Event.isSynth]
    · intro r t f v hmem
      simp at hmem
      exact ⟨hmem.2.1, hmem.2.2.1, hmem.2.2.2⟩
  | some audio =>
    cases hp : w.putObject (resolveRegion w.env) b k audio "audio/mpeg" with
    | false =>
      simp only [hs, hp]
      constructor
      · simp [countSynth, Event.isSynth]
      · intro r t f v hmem
        simp at hmem
        exact ⟨hmem.2.1, hmem.2.2.1, hmem.2.2.2⟩
    | true =>
      simp only [hs, hp]
      constructor
      · simp [countSynth, Event.isSynth]
      · intro r t f v hmem
        simp at hmem
        exact ⟨hmem.2.1, hmem.2.2.1, hmem.2.2.2⟩

/-- Witness for C1 at the concrete successful world. -/
theorem c1_synth_once_trimmed_mp3_voice_witness :
    countSynth (Synthesize.main wOk).1 = 1 ∧
    ∀ r t f v, Event.synthCall r t f v ∈ (Synthesize.main wOk).1 →
      t = pyStrip " \u00A0Hello world\n" ∧ f = "mp3" ∧ v = resolveVoice wOk.env :=
  c1_synth_once_trimmed_mp3_voice wOk "my-bucket" "out/hello.mp3" " \u00A0Hello world\n"
    (by decide) (by decide) (by decide) (by decide)

/-- Claim C2: whenever the synthesis call succeeds, the storage
service is invoked exactly once, and every storage call in the trace
carries the configured bucket, the configured key, a body equal to the
audio bytes the synthesis service returned, and content type
audio/mpeg. -/
theorem c2_storage_once_exact_bytes (w : World) (b k content : String) (audio : Bytes)
    (hb : w.env "S3_BUCKET" = some b) (hk : w.env "S3_KEY" = some k)
    (hr : w.readFile (resolveTextFile w.env) = some content)
    (hne : pyStrip content ≠ "")
    (hs : w.synth (resolveRegion w.env) (pyStrip content) "mp3" (resolveVoice w.env)
            = some audio) :
    countStore (Synthesize.main w).1 = 1 ∧
    ∀ r bb kk body ct, Event.storageCall r bb kk body ct ∈ (Synthesize.main w).1 →
      bb = b ∧ kk = k ∧ body = audio ∧ ct = "audio/mpeg" := by
  unfold Synthesize.main
  rw [hb, hk, hr]
  simp only [if_neg hne, hs]
  cases hp : w.putObject (resolveRegion w.env) b k audio "audio/mpeg" with
  | false =>
    simp only [hp]
    constructor
    · simp [countStore, Event.isStore]
    · intro r bb kk body ct hmem
      simp at hmem
      exact ⟨hmem.2.1, hmem.2.2.1, hmem.2.2.2.1, hmem.2.2.2.2⟩
  | true =>
    simp only [hp]
    constructor
    · simp [countStore, Event.isStore]
    · intro r bb kk body ct hmem
      simp at hmem
      exact ⟨hmem.2.1, hmem.2.2.1, hmem.2.2.2.1, hmem.2.2.2.2⟩

/-- Witness for C2 at the concrete successful world. -/
theorem c2_storage_once_exact_bytes_witness :
    countStore (Synthesize.main wOk).1 = 1 ∧
    ∀ r bb kk body ct, Event.storageCall r bb kk body ct ∈ (Synthesize.main wOk).1 →
      bb = "my-bucket" ∧ kk = "out/hello.mp3" ∧ body = [1, 2, 3] ∧ ct = "audio/mpeg" :=
  c2_storage_once_exact_bytes wOk "my-bucket" "out/hello.mp3" " \u00A0Hello world\n" [1, 2, 3]
    (by decide) (by decide) (by decide) (by decide) (by decide)

/-- A concrete world whose input file holds only whitespace. -/
def wEmptyText : World where
  env := fun n =>
    if n = "S3_BUCKET" then some "my-bucket"
    else if n = "S3_KEY" then some "out/hello.mp3"
    else none
  readFile := fun p => if p = "speech.txt" then some " \u00A0\x85\x1C\n " else none
  synth := fun _ _ _ _ => some [1, 2, 3]
  putObject := fun _ _ _ _ _ => true

/-- Claim C3: with the mandatory configuration present, if the file
content strips to the empty string the program prints the diagnostic,
exits with status 1, and makes no synthesis or storage call. -/
theorem c3_empty_input_exit_one_no_network (w : World) (b k content : String)
    (hb : w.env "S3_BUCKET" = some b) (hk : w.env "S3_KEY" = some k)
    (hr : w.readFile (resolveTextFile w.env) = some content)
    (hempty : pyStrip content = "") :
    (Synthesize.main w).1 =
      [Event.openFile (resolveTextFile w.env), Event.printLine "Text file is empty."] ∧
    (Synthesize.main w).2 = Outcome.exitCode 1 ∧
    countSynth (Synthesize.main w).1 = 0 ∧ countStore (Synthesize.main w).1 = 0 := by
  unfold Synthesize.main
  rw [hb, hk, hr]
  simp [if_pos hempty, countSynth, countStore, Event.isSynth, Event.isStore]

/-- Witness for C3 at the whitespace-only concrete world. -/
theorem c3_empty_input_exit_one_no_network_witness :
    (Synthesize.main wEmptyText).1 =
      [Event.openFile "speech.txt", Event.printLine "Text file is empty."] ∧
    (Synthesize.main wEmptyText).2 = Outcome.exitCode 1 ∧
    countSynth (Synthesize.main wEmptyText).1 = 0 ∧
    countStore (Synthesize.main wEmptyText).1 = 0 :=
  c3_empty_input_exit_one_no_network wEmptyText "my-bucket" "out/hello.mp3" " \u00A0\x85\x1C\n "
    (by decide) (by decide) (by decide) (by decide)

/-- A concrete world with `S3_BUCKET` absent; the input file is
whitespace-only on purpose, to exercise precedence of the
configuration failure. -/
def wNoBucket : World where
  env := fun n => if n = "S3_KEY" then some "out/hello.mp3" else none
  readFile := fun p => if p = "speech.txt" then some " \u00A0\x85\x1C\n " else none
  synth := fun _ _ _ _ => some [1, 2, 3]
  putObject := fun _ _ _ _ _ => true

/-- A concrete world with `S3_KEY` absent and the input file missing,
again to exercise precedence of the configuration failure. -/
def wNoKey : World where
  env := fun n => if n = "S3_BUCKET" then some "my-bucket" else none
  readFile := fun _ => none
  synth := fun _ _ _ _ => some [1, 2, 3]
  putObject := fun _ _ _ _ _ => true

/-- Claim C4: if `S3_BUCKET` or `S3_KEY` is unset the run ends in a
configuration (`KeyError`) failure and performs no synthesis call and
no storage call. -/
theorem c4_missing_config_no_network (w : World)
    (h : w.env "S3_BUCKET" = none ∨ w.env "S3_KEY" = none) :
    (∃ name, (Synthesize.main w).2 = Outcome.keyError name) ∧
    countSynth (Synthesize.main w).1 = 0 ∧ countStore (Synthesize.main w).1 = 0 := by
  unfold Synthesize.main
  rcases h with hb | hk
  · rw [hb]
    exact ⟨⟨"S3_BUCKET", rfl⟩, rfl, rfl⟩
  · cases hb : w.env "S3_BUCKET" with
    | none => exact ⟨⟨"S3_BUCKET", rfl⟩, rfl, rfl⟩
    | some b =>
      rw [hk]
      exact ⟨⟨"S3_KEY", rfl⟩, rfl, rfl⟩

/-- Witness for C4 at the world missing `S3_BUCKET`. -/
theorem c4_missing_config_no_network_witness :
    (∃ name, (Synthesize.main wNoBucket).2 = Outcome.keyError name) ∧
    countSynth (Synthesize.main wNoBucket).1 = 0 ∧
    countStore (Synthesize.main wNoBucket).1 = 0 :=
  c4_missing_config_no_network wNoBucket (Or.inl (by decide))

/-- Claim C9: a missing `S3_BUCKET` or `S3_KEY` is detected before the
input file is opened: the trace is empty (in particular no file open
happens), whatever the filesystem holds — even a missing, unreadable
or whitespace-only file — and the outcome is the configuration
failure. -/
theorem c9_config_precedes_file_open (w : World)
    (h : w.env "S3_BUCKET" = none ∨ w.env "S3_KEY" = none) :
    (Synthesize.main w).1 = [] ∧ countOpen (Synthesize.main w).1 = 0 ∧
    ∃ name, (Synthesize.main w).2 = Outcome.keyError name := by
  unfold Synthesize.main
  rcases h with hb | hk
  · rw [hb]
    exact ⟨rfl, rfl, "S3_BUCKET", rfl⟩
  · cases hb : w.env "S3_BUCKET" with
    | none => exact ⟨rfl, rfl, "S3_BUCKET", rfl⟩
    | some b =>
      rw [hk]
      exact ⟨rfl, rfl, "S3_KEY", rfl⟩

/-- Witness for C9 at the world missing `S3_KEY` whose file is also
unreadable. -/
theorem c9_config_precedes_file_open_witness :
    (Synthesize.main wNoKey).1 = [] ∧ countOpen (Synthesize.main wNoKey).1 = 0 ∧
    ∃ name, (Synthesize.main wNoKey).2 = Outcome.keyError name :=
  c9_config_precedes_file_open wNoKey (Or.inr (by decide))

/-- Every event of any run carries the resolved configuration: file
opens use the resolved input path, synthesis calls use the resolved
region, the "mp3" format and the resolved voice, and storage calls use
the resolved region, the content type audio/mpeg, and exactly the
values of `S3_BUCKET` and `S3_KEY` found in the environment. -/
lemma main_event_params (w : World) :
    (∀ p, Event.openFile p ∈ (Synthesize.main w).1 → p = resolveTextFile w.env) ∧
    (∀ r t f v, Event.synthCall r t f v ∈ (Synthesize.main w).1 →
      r = resolveRegion w.env ∧ f = "mp3" ∧ v = resolveVoice w.env) ∧
    (∀ r bb kk body ct, Event.storageCall r bb kk body ct ∈ (Synthesize.main w).1 →
      r = resolveRegion w.env ∧ ct = "audio/mpeg" ∧
      w.env "S3_BUCKET" = some bb ∧ w.env "S3_KEY" = some kk) := by
  unfold Synthesize.main
  cases hb : w.env "S3_BUCKET" with
  | none => simp
  | some b =>
    cases hk : w.env "S3_KEY" with
    | none => simp
    | some k =>
      cases hr : w.readFile (resolveTextFile w.env) with
      | none => simp
      | some content =>
        by_cases hne : pyStrip content = ""
        · simp [if_pos hne]
        · simp only [if_neg hne]
          cases hs : w.synth (resolveRegion w.env) (pyStrip content) "mp3" (resolveVoice w.env) with
          | none =>
            refine ⟨by simp, ?_, by simp⟩
            intro r t f v hm
            simp at hm
            exact ⟨hm.1, hm.2.2.1, hm.2.2.2⟩
          | some audio =>
            cases hp : w.putObject (resolveRegion w.env) b k audio "audio/mpeg" with
            | false =>
              simp only [hp]
              refine ⟨by simp, ?_, ?_⟩
              · intro r t f v hm
                simp at hm
                exact ⟨hm.1, hm.2.2.1, hm.2.2.2⟩
              · intro r bb kk body ct hm
                simp at hm
                obtain ⟨h1, h2, h3, h4, h5⟩ := hm
                subst h1; subst h2; subst h3; subst h5
                exact ⟨rfl, rfl, rfl, rfl⟩
            | true =>
              simp only [hp]
              refine ⟨by simp, ?_, ?_⟩
              · intro r t f v hm
                simp at hm
                exact ⟨hm.1, hm.2.2.1, hm.2.2.2⟩
              · intro r bb kk body ct hm
                simp at hm
                obtain ⟨h1, h2, h3, h4, h5⟩ := hm
                subst h1; subst h2; subst h3; subst h5
                exact ⟨rfl, rfl, rfl, rfl⟩

/-- Claim C5: each optional setting falls back to its fixed default
when the variable is absent — `Joanna` for `VOICE_ID`, `us-east-1` for
`AWS_REGION`, `speech.txt` for `TEXT_FILE` — and with `TEXT_FILE`
absent every file open in the run targets `speech.txt`. -/
theorem c5_defaults_used_verbatim (w : World) :
    (w.env "VOICE_ID" = none → resolveVoice w.env = "Joanna") ∧
    (w.env "AWS_REGION" = none → resolveRegion w.env = "us-east-1") ∧
    (w.env "TEXT_FILE" = none →
      resolveTextFile w.env = "speech.txt" ∧
      ∀ p, Event.openFile p ∈ (Synthesize.main w).1 → p = "speech.txt") := by
  refine ⟨fun h => ?_, fun h => ?_, fun h => ?_⟩
  · simp [resolveVoice, h]
  · simp [resolveRegion, h]
  · have htf : resolveTextFile w.env = "speech.txt" := by simp [resolveTextFile, h]
    exact ⟨htf, fun p hp => htf ▸ (main_event_params w).1 p hp⟩

/-- Witness for C5 at the concrete world leaving all optional
variables unset. -/
theorem c5_defaults_used_verbatim_witness :
    resolveVoice wOk.env = "Joanna" ∧ resolveRegion wOk.env = "us-east-1" ∧
    (resolveTextFile wOk.env = "speech.txt" ∧
      ∀ p, Event.openFile p ∈ (Synthesize.main wOk).1 → p = "speech.txt") :=
  ⟨(c5_defaults_used_verbatim wOk).1 (by decide),
   (c5_defaults_used_verbatim wOk).2.1 (by decide),
   (c5_defaults_used_verbatim wOk).2.2 (by decide)⟩

/-- Claim C6: when both service calls succeed the run ends with exit
code 0 and the trace contains the confirmation message built from
exactly the configured bucket and key, in the form s3://bucket/key. -/
theorem c6_success_message_exit_zero (w : World) (b k content : String) (audio : Bytes)
    (hb : w.env "S3_BUCKET" = some b) (hk : w.env "S3_KEY" = some k)
    (hr : w.readFile (resolveTextFile w.env) = some content)
    (hne : pyStrip content ≠ "")
    (hs : w.synth (resolveRegion w.env) (pyStrip content) "mp3" (resolveVoice w.env)
            = some audio)
    (hp : w.putObject (resolveRegion w.env) b k audio "audio/mpeg" = true) :
    (Synthesize.main w).2 = Outcome.exitCode 0 ∧
    Event.printLine ("Uploaded s3://" ++ b ++ "/" ++ k) ∈ (Synthesize.main w).1 := by
  unfold Synthesize.main
  rw [hb, hk, hr]
  simp [if_neg hne, hs, hp]

/-- Witness for C6 at the concrete successful world. -/
theorem c6_success_message_exit_zero_witness :
    (Synthesize.main wOk).2 = Outcome.exitCode 0 ∧
    Event.printLine ("Uploaded s3://" ++ "my-bucket" ++ "/" ++ "out/hello.mp3")
      ∈ (Synthesize.main wOk).1 :=
  c6_success_message_exit_zero wOk "my-bucket" "out/hello.mp3" " \u00A0Hello world\n" [1, 2, 3]
    (by decide) (by decide) (by decide) (by decide) (by decide) (by decide)

/-- Claim C7: one region value drives both external clients — every
synthesis call and every storage call in any run carries the resolved
region (`AWS_REGION` or its default). -/
theorem c7_single_region_both_clients (w : World) :
    (∀ r t f v, Event.synthCall r t f v ∈ (Synthesize.main w).1 →
      r = resolveRegion w.env) ∧
    (∀ r bb kk body ct, Event.storageCall r bb kk body ct ∈ (Synthesize.main w).1 →
      r = resolveRegion w.env) :=
  ⟨fun r t f v h => ((main_event_params w).2.1 r t f v h).1,
   fun r bb kk body ct h => ((main_event_params w).2.2 r bb kk body ct h).1⟩

/-- Witness for C7: both calls of the successful concrete run carry
the default region. -/
theorem c7_single_region_both_clients_witness :
    ("us-east-1" : String) = resolveRegion wOk.env ∧
    ("us-east-1" : String) = resolveRegion wOk.env :=
  ⟨(c7_single_region_both_clients wOk).1 "us-east-1" "Hello world" "mp3" "Joanna"
      (by decide),
   (c7_single_region_both_clients wOk).2 "us-east-1" "my-bucket" "out/hello.mp3"
      [1, 2, 3] "audio/mpeg" (by decide)⟩

/-- A concrete world where the three optional variables are all set to
the empty string (and the empty path reads to real text). -/
def wEmptySet : World where
  env := fun n =>
    if n = "S3_BUCKET" then some "my-bucket"
    else if n = "S3_KEY" then some "out/hello.mp3"
    else if n = "VOICE_ID" then some ""
    else if n = "AWS_REGION" then some ""
    else if n = "TEXT_FILE" then some ""
    else none
  readFile := fun p => if p = "" then some "Hello world" else none
  synth := fun _ _ _ _ => some [1, 2, 3]
  putObject := fun _ _ _ _ _ => true

/-- Claim C10: a variable set to the empty string counts as set: the
resolved value is the stored value even when it is empty, the defaults
apply only to an absent variable, and with `VOICE_ID` set to "" every
synthesis call carries the empty voice identifier. -/
theorem c10_empty_string_counts_as_set (w : World) (v : String) :
    (w.env "VOICE_ID" = some v → resolveVoice w.env = v) ∧
    (w.env "AWS_REGION" = some v → resolveRegion w.env = v) ∧
    (w.env "TEXT_FILE" = some v → resolveTextFile w.env = v) ∧
    (w.env "VOICE_ID" = some "" →
      ∀ r t f vo, Event.synthCall r t f vo ∈ (Synthesize.main w).1 → vo = "") := by
  refine ⟨fun h => by simp [resolveVoice, h], fun h => by simp [resolveRegion, h],
          fun h => by simp [resolveTextFile, h], fun h r t f vo hm => ?_⟩
  have hv := ((main_event_params w).2.1 r t f vo hm).2.2
  rw [hv]
  simp [resolveVoice, h]

/-- Witness for C10 at the world whose optional variables are all the
empty string. -/
theorem c10_empty_string_counts_as_set_witness :
    resolveVoice wEmptySet.env = "" ∧ resolveRegion wEmptySet.env = "" ∧
    resolveTextFile wEmptySet.env = "" ∧ ("" : String) = "" :=
  ⟨(c10_empty_string_counts_as_set wEmptySet "").1 (by decide),
   (c10_empty_string_counts_as_set wEmptySet "").2.1 (by decide),
   (c10_empty_string_counts_as_set wEmptySet "").2.2.1 (by decide),
   (c10_empty_string_counts_as_set wEmptySet "").2.2.2 (by decide)
     "" "Hello world" "mp3" "" (by decide)⟩

/-- In any run each external operation happens at most once: one file
open, one synthesis call, one storage call at most. -/
lemma main_counts (w : World) :
    countOpen (Synthesize.main w).1 ≤ 1 ∧ countSynth (Synthesize.main w).1 ≤ 1 ∧
    countStore (Synthesize.main w).1 ≤ 1 := by
  unfold Synthesize.main
  cases hb : w.env "S3_BUCKET" with
  | none => simp [countOpen, countSynth, countStore]
  | some b =>
    cases hk : w.env "S3_KEY" with
    | none => simp [countOpen, countSynth, countStore]
    | some k =>
      cases hr : w.readFile (resolveTextFile w.env) with
      | none =>
        simp [countOpen, countSynth, countStore, Event.isOpen, Event.isSynth, Event.isStore]
      | some content =>
        by_cases hne : pyStrip content = ""
        · simp [if_pos hne, countOpen, countSynth, countStore,
            Event.isOpen, Event.isSynth, Event.isStore]
        · simp only [if_neg hne]
          cases hs : w.synth (resolveRegion w.env) (pyStrip content) "mp3" (resolveVoice w.env) with
          | none =>
            simp [countOpen, countSynth, countStore,
              Event.isOpen, Event.isSynth, Event.isStore]
          | some audio =>
            cases hp : w.putObject (resolveRegion w.env) b k audio "audio/mpeg" with
            | false =>
              simp [hp, countOpen, countSynth, countStore,
                Event.isOpen, Event.isSynth, Event.isStore]
            | true =>
              simp [hp, countOpen, countSynth, countStore,
                Event.isOpen, Event.isSynth, Event.isStore]

/-- The only normal exit codes a run can produce are 0 and 1. -/
lemma main_exit_codes (w : World) :
    ∀ n, (Synthesize.main w).2 = Outcome.exitCode n → n = 0 ∨ n = 1 := by
  unfold Synthesize.main
  cases hb : w.env "S3_BUCKET" with
  | none => intro n h; exact absurd h (by simp)
  | some b =>
    cases hk : w.env "S3_KEY" with
    | none => intro n h; exact absurd h (by simp)
    | some k =>
      cases hr : w.readFile (resolveTextFile w.env) with
      | none => intro n h; exact absurd h (by simp)
      | some content =>
        by_cases hne : pyStrip content = ""
        · simp only [if_pos hne]
          intro n h
          simp at h
          omega
        · simp only [if_neg hne]
          cases hs : w.synth (resolveRegion w.env) (pyStrip content) "mp3" (resolveVoice w.env) with
          | none => intro n h; exact absurd h (by simp)
          | some audio =>
            cases hp : w.putObject (resolveRegion w.env) b k audio "audio/mpeg" with
            | false =>
              simp only [hp]
              intro n h
              exact absurd h (by simp)
            | true =>
              simp only [hp]
              intro n h
              simp at h
              omega

/-- A concrete world whose input file cannot be read. -/
def wReadFail : World where
  env := fun n =>
    if n = "S3_BUCKET" then some "my-bucket"
    else if n = "S3_KEY" then some "out/hello.mp3"
    else none
  readFile := fun _ => none
  synth := fun _ _ _ _ => some [1, 2, 3]
  putObject := fun _ _ _ _ _ => true

/-- A concrete world whose synthesis call fails. -/
def wSynthFail : World where
  env := fun n =>
    if n = "S3_BUCKET" then some "my-bucket"
    else if n = "S3_KEY" then some "out/hello.mp3"
    else none
  readFile := fun p => if p = "speech.txt" then some "Hi" else none
  synth := fun _ _ _ _ => none
  putObject := fun _ _ _ _ _ => true

/-- A concrete world whose storage upload fails. -/
def wPutFail : World where
  env := fun n =>
    if n = "S3_BUCKET" then some "my-bucket"
    else if n = "S3_KEY" then some "out/hello.mp3"
    else none
  readFile := fun p => if p = "speech.txt" then some "Hi" else none
  synth := fun _ _ _ _ => some [7]
  putObject := fun _ _ _ _ _ => false

/-- Claim C8: every operation is attempted at most once (no retry
anywhere), a failed file read, synthesis call, or upload makes the run
end in the corresponding propagated error, and the only normal exit
codes are 0 (success) and 1 (the controlled empty-input exit). -/
theorem c8_single_attempt_errors_propagate (w : World) :
    countOpen (Synthesize.main w).1 ≤ 1 ∧ countSynth (Synthesize.main w).1 ≤ 1 ∧
    countStore (Synthesize.main w).1 ≤ 1 ∧
    (∀ b k, w.env "S3_BUCKET" = some b → w.env "S3_KEY" = some k →
      w.readFile (resolveTextFile w.env) = none →
      (Synthesize.main w).2 = Outcome.inputError) ∧
    (∀ b k content, w.env "S3_BUCKET" = some b → w.env "S3_KEY" = some k →
      w.readFile (resolveTextFile w.env) = some content → pyStrip content ≠ "" →
      w.synth (resolveRegion w.env) (pyStrip content) "mp3" (resolveVoice w.env) = none →
      (Synthesize.main w).2 = Outcome.synthesisError) ∧
    (∀ b k content audio, w.env "S3_BUCKET" = some b → w.env "S3_KEY" = some k →
      w.readFile (resolveTextFile w.env) = some content → pyStrip content ≠ "" →
      w.synth (resolveRegion w.env) (pyStrip content) "mp3" (resolveVoice w.env)
        = some audio →
      w.putObject (resolveRegion w.env) b k audio "audio/mpeg" = false →
      (Synthesize.main w).2 = Outcome.storageError) ∧
    (∀ n, (Synthesize.main w).2 = Outcome.exitCode n → n = 0 ∨ n = 1) := by
  refine ⟨(main_counts w).1, (main_counts w).2.1, (main_counts w).2.2, ?_, ?_, ?_,
    main_exit_codes w⟩
  · intro b k hb hk hrn
    unfold Synthesize.main
    rw [hb, hk, hrn]
  · intro b k content hb hk hr hne hs
    unfold Synthesize.main
    rw [hb, hk, hr]
    simp [if_neg hne, hs]
  · intro b k content audio hb hk hr hne hs hp
    unfold Synthesize.main
    rw [hb, hk, hr]
    simp [if_neg hne, hs, hp]

/-- Witness for C8 across the concrete failing worlds and the
successful one. -/
theorem c8_single_attempt_errors_propagate_witness :
    (Synthesize.main wReadFail).2 = Outcome.inputError ∧
    (Synthesize.main wSynthFail).2 = Outcome.synthesisError ∧
    (Synthesize.main wPutFail).2 = Outcome.storageError ∧
    (0 = 0 ∨ 0 = 1) :=
  ⟨(c8_single_attempt_errors_propagate wReadFail).2.2.2.1 "my-bucket" "out/hello.mp3"
      (by decide) (by decide) (by decide),
   (c8_single_attempt_errors_propagate wSynthFail).2.2.2.2.1 "my-bucket" "out/hello.mp3"
      "Hi" (by decide) (by decide) (by decide) (by decide) (by decide),
   (c8_single_attempt_errors_propagate wPutFail).2.2.2.2.2.1 "my-bucket" "out/hello.mp3"
      "Hi" [7] (by decide) (by decide) (by decide) (by decide) (by decide) (by decide),
   (c8_single_attempt_errors_propagate wOk).2.2.2.2.2.2 0 (by decide)⟩

example : pyStrip "\u00A0" = "" := by decide

example : pyStrip "\u00A0hello\x1C\x85" = "hello" := by decide

example :
    Synthesize.main { wOk with readFile := fun _ => some "\u00A0" } =
      ([Event.openFile "speech.txt", Event.printLine "Text file is empty."],
       Outcome.exitCode 1) := by decide
